import Mathlib

/-!
Verification of the meeting-detector pipeline.

The development shallowly embeds the two halves of the pipeline:

* the downstream TypeScript side (`src/detector.ts`): JSON signal parsing,
  the app-name normalizer `transformAppName`, the denylist, and the
  time-windowed dedup cache `recentSignals` with its eviction sweep;
* the upstream bash side (`meeting-detect.sh`): the multi-line TCC
  accumulator (`current_svc` / `current_verdict` / `current_pid`), the
  coarse `normalize_app`, and the previous-state + 10s-cooldown filter.

JS and bash strings are modelled as `List Char`; machine time (epoch
milliseconds / seconds) is modelled as `Nat`, which agrees with the
JS / bash integer comparisons used by the code (all thresholds are
positive, and truncated subtraction coincides with the sign tests the
code performs).
-/

namespace MeetingDetect

/-- Strings of the embedded programs: lists of characters. -/
abbrev Str := List Char

/-- Character-level prefix test: `startsWithC pat s` holds when `pat` is a
prefix of `s`. -/
def startsWithC : Str → Str → Bool
  | [], _ => true
  | _ :: _, [] => false
  | a :: as, b :: bs => a == b && startsWithC as bs

/-- Substring test: `containsSub s pat` holds when `pat` occurs contiguously
in `s`.  Models JS `String.prototype.includes` and bash `[[ $s == *pat* ]]`. -/
def containsSub : Str → Str → Bool
  | [], pat => startsWithC pat []
  | c :: rest, pat => startsWithC pat (c :: rest) || containsSub rest pat

/-- Models `toLowerCase` (all patterns in the source are ASCII). -/
def lowerStr (s : Str) : Str := s.map Char.toLower

/-- Models the JS idiom of defaulting a possibly-absent string field to
the empty string. -/
def jsOr : Option Str → Str
  | none => []
  | some s => s

/-! Downstream data model (src/types.ts, src/detector.ts). -/

/-- The public Signal record (`MeetingSignal` in src/types.ts), with the
loosely-typed JSON fields already coerced. -/
structure MeetingSignal where
  event : Str
  timestamp : Str
  service : Str
  verdict : Str
  process : Str
  pid : Str
  front_app : Str
  camera_active : Bool
deriving DecidableEq

/-- The loosely-typed `camera_active` field of a forwarded JSON record:
the upstream emits the strings "true"/"false", but the parser also accepts
a genuine boolean, and the field may be absent. -/
inductive JsonCamera where
  | str (s : Str)
  | bool (b : Bool)
  | absent
deriving DecidableEq

/-- A parsed JSON object for one forwarded line; fields that may be absent
(`undefined` in JS) are `Option`s. -/
structure RawRecord where
  event : Str
  timestamp : Str
  service : Option Str
  verdict : Option Str
  process : Option Str
  pid : Option Str
  front_app : Option Str
  camera_active : JsonCamera
deriving DecidableEq

/-- Coercion of the camera flag (detector.ts line 158): the string
literal true, or a genuine boolean; anything else is false. -/
def coerceCamera : JsonCamera → Bool
  | .str s => decide (s = "true".data)
  | .bool b => b
  | .absent => false

/-- Models `transformAppName` (detector.ts lines 162-214): the ordered, first-match
substring rule table mapping `(frontApp, process)` to a canonical app label.
`undefined` inputs behave exactly like the empty string and are passed as
`[]`. -/
def transformAppName (frontApp process : Str) : Str :=
  let app := lowerStr frontApp
  let proc := lowerStr process
  if containsSub app "slack".data || containsSub proc "slack".data then
    "Slack".data
  else if containsSub app "msteams".data || containsSub proc "microsoft teams".data || containsSub proc "teams".data then
    "Microsoft Teams".data
  else if containsSub app "zoom".data || containsSub proc "zoom".data then
    "Zoom".data
  else if containsSub app "webex".data || containsSub proc "webex".data || containsSub proc "cisco webex".data then
    "Webex".data
  else if containsSub app "google meet".data || containsSub proc "google meet".data || containsSub proc "meet.google.com".data || (containsSub app "chrome".data && containsSub proc "chrome".data) then
    "Google Meet".data
  else if containsSub app "skype".data || containsSub proc "skype".data then
    "Skype".data
  else if containsSub app "discord".data || containsSub proc "discord".data then
    "Discord".data
  else if containsSub app "facetime".data || containsSub proc "facetime".data then
    "FaceTime".data
  else if containsSub app "gotomeeting".data || containsSub proc "gotomeeting".data || containsSub proc "goto meeting".data then
    "GoToMeeting".data
  else if containsSub app "bluejeans".data || containsSub proc "bluejeans".data || containsSub proc "blue jeans".data then
    "BlueJeans".data
  else if containsSub app "jitsi".data || containsSub proc "jitsi".data then
    "Jitsi Meet".data
  else if containsSub app "whereby".data || containsSub proc "whereby".data then
    "Whereby".data
  else if containsSub app "8x8".data || containsSub proc "8x8".data then
    "8x8".data
  else if containsSub app "ringcentral".data || containsSub proc "ringcentral".data || containsSub proc "ring central".data then
    "RingCentral".data
  else if containsSub app "bigbluebutton".data || containsSub proc "bigbluebutton".data || containsSub proc "big blue button".data then
    "BigBlueButton".data
  else if containsSub app "chime".data || containsSub proc "chime".data || containsSub proc "amazon chime".data then
    "Amazon Chime".data
  else if containsSub app "hangouts".data || containsSub proc "hangouts".data || containsSub proc "google hangouts".data then
    "Google Hangouts".data
  else if containsSub app "adobe connect".data || containsSub proc "adobe connect".data then
    "Adobe Connect".data
  else if containsSub app "teamviewer".data || containsSub proc "teamviewer".data then
    "TeamViewer".data
  else if containsSub app "anydesk".data || containsSub proc "anydesk".data then
    "AnyDesk".data
  else if containsSub app "clickmeeting".data || containsSub proc "clickmeeting".data then
    "ClickMeeting".data
  else if containsSub app "appear.in".data || containsSub proc "appear.in".data then
    "Appear.in".data
  else if frontApp = [] then "Meeting App".data else frontApp

/-- Disjunction of every rule condition of `transformAppName`, over the
already-lowercased inputs.  `ruleFires (lowerStr a) (lowerStr p) = false`
states that no rule of the table matches `(a, p)`. -/
def ruleFires (app proc : Str) : Bool :=
  (containsSub app "slack".data || containsSub proc "slack".data) ||
  (containsSub app "msteams".data || containsSub proc "microsoft teams".data || containsSub proc "teams".data) ||
  (containsSub app "zoom".data || containsSub proc "zoom".data) ||
  (containsSub app "webex".data || containsSub proc "webex".data || containsSub proc "cisco webex".data) ||
  (containsSub app "google meet".data || containsSub proc "google meet".data || containsSub proc "meet.google.com".data || (containsSub app "chrome".data && containsSub proc "chrome".data)) ||
  (containsSub app "skype".data || containsSub proc "skype".data) ||
  (containsSub app "discord".data || containsSub proc "discord".data) ||
  (containsSub app "facetime".data || containsSub proc "facetime".data) ||
  (containsSub app "gotomeeting".data || containsSub proc "gotomeeting".data || containsSub proc "goto meeting".data) ||
  (containsSub app "bluejeans".data || containsSub proc "bluejeans".data || containsSub proc "blue jeans".data) ||
  (containsSub app "jitsi".data || containsSub proc "jitsi".data) ||
  (containsSub app "whereby".data || containsSub proc "whereby".data) ||
  (containsSub app "8x8".data || containsSub proc "8x8".data) ||
  (containsSub app "ringcentral".data || containsSub proc "ringcentral".data || containsSub proc "ring central".data) ||
  (containsSub app "bigbluebutton".data || containsSub proc "bigbluebutton".data || containsSub proc "big blue button".data) ||
  (containsSub app "chime".data || containsSub proc "chime".data || containsSub proc "amazon chime".data) ||
  (containsSub app "hangouts".data || containsSub proc "hangouts".data || containsSub proc "google hangouts".data) ||
  (containsSub app "adobe connect".data || containsSub proc "adobe connect".data) ||
  (containsSub app "teamviewer".data || containsSub proc "teamviewer".data) ||
  (containsSub app "anydesk".data || containsSub proc "anydesk".data) ||
  (containsSub app "clickmeeting".data || containsSub proc "clickmeeting".data) ||
  (containsSub app "appear.in".data || containsSub proc "appear.in".data)

/-- Models `parseSignal` (detector.ts lines 140-160): deserialize one forwarded
record, re-derive `service`, coerce the loose fields. -/
def parseSignal (r : RawRecord) : MeetingSignal :=
  let originalService := jsOr r.service
  let transformedService := transformAppName (jsOr r.front_app) (jsOr r.process)
  let finalService :=
    if originalService = "microphone".data ∨ originalService = "camera".data ∨ originalService = [] then
      transformedService
    else originalService
  { event := r.event
    timestamp := r.timestamp
    service := finalService
    verdict := jsOr r.verdict
    process := jsOr r.process
    pid := jsOr r.pid
    front_app := jsOr r.front_app
    camera_active := coerceCamera r.camera_active }

/-! Downstream dedup cache (detector.ts lines 10, 216-245). -/

/-- One value of the `recentSignals` map. -/
structure DedupEntry where
  timestamp : Nat
  signal : MeetingSignal
deriving DecidableEq

/-- The `recentSignals` JS `Map`, as an insertion-ordered association list:
`set` on an existing key updates it in place, on a new key appends. -/
abbrev SignalMap := List (Str × DedupEntry)

/-- Models JS `Map.get`. -/
def lookupKey : SignalMap → Str → Option DedupEntry
  | [], _ => none
  | (k, e) :: rest, key => if k = key then some e else lookupKey rest key

/-- Models JS `Map.set`. -/
def setKey : SignalMap → Str → DedupEntry → SignalMap
  | [], key, e => [(key, e)]
  | (k, e0) :: rest, key, e =>
    if k = key then (key, e) :: rest else (k, e0) :: setKey rest key e

/-- The dedup key string: pid, service and verdict joined with dashes
(detector.ts lines 219 and 232). -/
def signalKey (s : MeetingSignal) : Str :=
  s.pid ++ "-".data ++ s.service ++ "-".data ++ s.verdict

/-- Models `isDuplicateSignal` (detector.ts lines 216-227): empty pid is never a
duplicate; otherwise a duplicate is an entry of the same key younger than
60000 ms. -/
def isDuplicateSignal (now : Nat) (m : SignalMap) (s : MeetingSignal) : Bool :=
  if s.pid = [] then false
  else
    match lookupKey m (signalKey s) with
    | none => false
    | some existing => decide (now - existing.timestamp < 60000)

/-- Models `trackSignal` (detector.ts lines 229-245): upsert the key with the
current time, then sweep the whole map and delete every entry whose
timestamp is strictly below `now - 120000`. -/
def trackSignal (now : Nat) (m : SignalMap) (s : MeetingSignal) : SignalMap :=
  if s.pid = [] then m
  else
    let m1 := setKey m (signalKey s) { timestamp := now, signal := s }
    let cutoffTime := now - 120000
    m1.filter (fun p => !(decide (p.2.timestamp < cutoffTime)))

/-- The fixed process denylist applied in the stdout handler
(detector.ts lines 53-54). -/
def isNoiseProcess (s : MeetingSignal) : Bool :=
  let processName := lowerStr s.process
  containsSub processName "afplay".data || containsSub processName "sirincservice".data

/-- Observable outputs of the stdout handler: a dispatched meeting Signal or
a reported parse error. -/
inductive Out where
  | meeting (s : MeetingSignal)
  | error
deriving DecidableEq

/-- One already-parsed signal through denylist, dedup check, emission and
tracking (detector.ts lines 52-71). -/
def handleSignal (now : Nat) (m : SignalMap) (s : MeetingSignal) : SignalMap × List Out :=
  if isNoiseProcess s then (m, [])
  else if isDuplicateSignal now m s then (m, [])
  else (trackSignal now m s, [Out.meeting s])

/-- One raw stdout line: blank (skipped), malformed JSON (`JSON.parse`
throws before any state is touched), or a well-formed record. -/
inductive Line where
  | blank
  | malformed
  | valid (r : RawRecord)
deriving DecidableEq

/-- One line of the stdout data handler (detector.ts lines 47-79). -/
def step (now : Nat) (m : SignalMap) (l : Line) : SignalMap × List Out :=
  match l with
  | .blank => (m, [])
  | .malformed => (m, [Out.error])
  | .valid r => handleSignal now m (parseSignal r)

/-- A batch of lines, processed strictly in order, outputs concatenated. -/
def processLines : SignalMap → List (Nat × Line) → SignalMap × List Out
  | m, [] => (m, [])
  | m, (now, l) :: rest =>
    let res := step now m l
    let res2 := processLines res.1 rest
    (res2.1, res.2 ++ res2.2)

/-- A stream of already-parsed signals through `handleSignal`. -/
def processSignals : SignalMap → List (Nat × MeetingSignal) → SignalMap × List Out
  | m, [] => (m, [])
  | m, (now, s) :: rest =>
    let res := handleSignal now m s
    let res2 := processSignals res.1 rest
    (res2.1, res.2 ++ res2.2)

/-! Detector instance lifecycle (detector.ts lines 7-124). -/

/-- The per-instance state of `MeetingDetector` that the claims concern:
the exclusive subprocess handle (as a flag) and the `recentSignals` map. -/
structure Detector where
  running : Bool
  recentSignals : SignalMap
deriving DecidableEq

/-- Construction of a fresh instance: empty dedup map, not running. -/
def Detector.new : Detector := { running := false, recentSignals := [] }

/-- Models `start` (lines 31-43): throws when already running (modelled as
`none`); otherwise spawns the subprocess.  `recentSignals` is not touched. -/
def Detector.start (d : Detector) : Option Detector :=
  if d.running then none else some { d with running := true }

/-- Models `stop` (lines 108-117): kills the subprocess and clears the handle;
`recentSignals` is not touched. -/
def Detector.stop (d : Detector) : Detector :=
  if d.running then { d with running := false } else d

/-- A batch of stdout lines processed by an instance. -/
def Detector.feed (d : Detector) (batch : List (Nat × Line)) : Detector × List Out :=
  let res := processLines d.recentSignals batch
  ({ d with recentSignals := res.1 }, res.2)

/-! Upstream shell pipeline (meeting-detect.sh). -/

namespace Shell

/-- The variables of the while-loop in meeting-detect.sh: the previous-state
snapshot used for the 10s-cooldown filter (lines 97-104) and the multi-line
TCC accumulator (lines 107-110, plus the two extra fields set in the pid
branch). -/
structure ShellState where
  prev_camera_active : Str
  prev_front_app : Str
  prev_service : Str
  prev_verdict : Str
  prev_process : Str
  prev_pid : Str
  prev_main_app : Str
  last_log_time : Nat
  current_svc : Str
  current_pid : Str
  current_app : Str
  current_verdict : Str
  current_parent_pid : Str
  current_process_path : Str
deriving DecidableEq

/-- All variables start empty, `last_log_time=0`. -/
def initialState : ShellState :=
  { prev_camera_active := [], prev_front_app := [], prev_service := [],
    prev_verdict := [], prev_process := [], prev_pid := [], prev_main_app := [],
    last_log_time := 0,
    current_svc := [], current_pid := [], current_app := [],
    current_verdict := [], current_parent_pid := [], current_process_path := [] }

/-- Results of the external probes the loop body invokes for one line
(`ps`, `osascript`, `pgrep`, `who`, `date`): opaque best-effort strings and
the current epoch-seconds clock. -/
structure Ctx where
  comm : Str
  parentPid : Str
  processPath : Str
  ts : Str
  fgApp : Str
  camNow : Str
  winTitle : Str
  sessId : Str
  epochNow : Nat
deriving DecidableEq

/-- One JSON line printed by the `json` helper (lines 177-189). -/
structure EmittedRecord where
  event : Str
  timestamp : Str
  service : Str
  verdict : Str
  process : Str
  pid : Str
  parent_pid : Str
  process_path : Str
  front_app : Str
  window_title : Str
  session_id : Str
  camera_active : Str
deriving DecidableEq

/-- Models `basename`: the final path component. -/
def basenameC (s : Str) : Str :=
  s.foldl (fun acc c => if c = '/' then [] else acc ++ [c]) []

/-- Models `normalize_app` (lines 78-94): coarse helper-process collapsing,
case-sensitive substring tests in bash order. -/
def normalize_app (process_name : Str) : Str :=
  if containsSub process_name "Microsoft Teams".data then "Microsoft Teams".data
  else if containsSub process_name "Google Chrome".data || containsSub process_name "Chrome Helper".data then "Google Chrome".data
  else if containsSub process_name "Slack".data then "Slack".data
  else process_name

/-- Service-token tests on one raw line (lines 122-126). -/
def svcAfter (svc : Str) (line : Str) : Str :=
  if containsSub line "kTCCServiceMicrophone".data then "microphone".data
  else if containsSub line "kTCCServiceCamera".data then "camera".data
  else svc

/-- Verdict-token tests on one raw line (lines 129-135); last write wins
across lines, so an unrecognized line leaves the verdict unchanged. -/
def verdictAfter (v : Str) (line : Str) : Str :=
  if containsSub line "Access Allowed".data || containsSub line "Auth Granted".data || containsSub line "Allow".data then "allowed".data
  else if containsSub line "Denied".data then "denied".data
  else if containsSub line "FORWARD".data then "requested".data
  else v

/-- The bash regex `target_token=\x7bpid:([0-9]+)` (line 138): leftmost
match, greedy capture of the digit run. -/
def extractPid : Str → Option Str
  | [] => none
  | c :: rest =>
    if startsWithC "target_token=\x7bpid:".data (c :: rest) then
      if ((c :: rest).drop ("target_token=\x7bpid:".data.length)).takeWhile Char.isDigit = [] then
        extractPid rest
      else
        some (((c :: rest).drop ("target_token=\x7bpid:".data.length)).takeWhile Char.isDigit)
    else extractPid rest

/-- Reset of the accumulator fields (lines 203-208). -/
def clearCurrent (st : ShellState) : ShellState :=
  { st with
    current_svc := [], current_pid := [], current_app := [],
    current_verdict := [], current_parent_pid := [], current_process_path := [] }

/-- One iteration of the while-loop body (lines 118-210) on one raw log
line, given the probe results `ctx` for that iteration. -/
def shellStep (ctx : Ctx) (st : ShellState) (line : Str) : ShellState × Option EmittedRecord :=
  let st1 := { st with
    current_svc := svcAfter st.current_svc line
    current_verdict := verdictAfter st.current_verdict line }
  match extractPid line with
  | none => (st1, none)
  | some p =>
    let st2 :=
      if p ≠ [] then
        { st1 with
          current_pid := p
          current_app := basenameC ctx.comm
          current_parent_pid := ctx.parentPid
          current_process_path := ctx.processPath }
      else { st1 with current_pid := p }
    if st2.current_svc ≠ [] ∧ st2.current_pid ≠ [] then
      let normalized_app := normalize_app st2.current_app
      let current_time := ctx.epochNow
      let current_state := ctx.camNow ++ "|".data ++ st2.current_svc ++ "|".data ++ normalized_app
      let previous_state := st2.prev_camera_active ++ "|".data ++ st2.prev_service ++ "|".data ++ st2.prev_main_app
      let time_diff := current_time - st2.last_log_time
      if current_state ≠ previous_state ∨ time_diff ≥ 10 then
        let emitted : EmittedRecord :=
          { event := "meeting_signal".data
            timestamp := ctx.ts
            service := st2.current_svc
            verdict := st2.current_verdict
            process := st2.current_app
            pid := st2.current_pid
            parent_pid := st2.current_parent_pid
            process_path := st2.current_process_path
            front_app := ctx.fgApp
            window_title := ctx.winTitle
            session_id := ctx.sessId
            camera_active := ctx.camNow }
        let st3 := { st2 with
          prev_camera_active := ctx.camNow
          prev_front_app := ctx.fgApp
          prev_service := st2.current_svc
          prev_verdict := st2.current_verdict
          prev_process := st2.current_app
          prev_pid := st2.current_pid
          prev_main_app := normalized_app
          last_log_time := current_time }
        (clearCurrent st3, some emitted)
      else
        (clearCurrent st2, none)
    else
      (st2, none)

/-- A sequence of raw lines through the loop, in stream order. -/
def shellRun : ShellState → List (Ctx × Str) → ShellState × List EmittedRecord
  | st, [] => (st, [])
  | st, (ctx, line) :: rest =>
    let res := shellStep ctx st line
    let res2 := shellRun res.1 rest
    (res2.1, res.2.toList ++ res2.2)

end Shell

/-! Concrete fixtures used by witnesses and counterexamples. -/

/-- A well-formed non-denylisted Signal with a non-empty pid. -/
def sigZoom : MeetingSignal :=
  { event := "meeting_signal".data, timestamp := "T1".data, service := "Zoom".data,
    verdict := "allowed".data, process := "zoom.us".data, pid := "77".data,
    front_app := "Zoom".data, camera_active := false }

/-- A second Signal whose dedup key differs from that of `sigZoom`. -/
def sigWebex : MeetingSignal :=
  { event := "meeting_signal".data, timestamp := "T2".data, service := "Webex".data,
    verdict := "denied".data, process := "WebexHelper".data, pid := "9".data,
    front_app := "Webex".data, camera_active := true }

/-- A Signal with an empty pid field. -/
def sigNoPid : MeetingSignal :=
  { event := "meeting_signal".data, timestamp := "T3".data, service := "FaceTime".data,
    verdict := "requested".data, process := "avconferenced".data, pid := [],
    front_app := "FaceTime".data, camera_active := false }

/-- A forwarded record whose upstream service field is the raw resource
name, forcing the parser to re-derive the service label. -/
def rawTeams : RawRecord :=
  { event := "meeting_signal".data, timestamp := "T4".data,
    service := some "microphone".data, verdict := some "allowed".data,
    process := some "Microsoft Teams WebView".data, pid := some "7390".data,
    front_app := some "MSTeams".data, camera_active := .str "false".data }

/-- A forwarded record whose upstream service field is already an app
label, which the parser must keep unchanged. -/
def rawZoom : RawRecord :=
  { event := "meeting_signal".data, timestamp := "T5".data,
    service := some "Zoom".data, verdict := some "allowed".data,
    process := some "zoom.us".data, pid := some "77".data,
    front_app := some "Zoom".data, camera_active := .bool false }

/-- Fixed probe results for shell-loop scenarios. -/
def ctxA : Shell.Ctx :=
  { comm := "Microsoft Teams Helper".data, parentPid := "1".data,
    processPath := "/Applications/t".data, ts := "2025-09-01T14:30:29Z".data,
    fgApp := "MSTeams".data, camNow := "false".data, winTitle := "w".data,
    sessId := "console".data, epochNow := 100 }

/-- Probe results for a second resolution 5 seconds later with a different
frontmost app but the same target process and camera state. -/
def ctxB : Shell.Ctx :=
  { ctxA with fgApp := "Google Chrome".data, epochNow := 105 }

/-- A raw TCC line carrying only a deny verdict token. -/
def lineDenied : Str := "prompting policy for hardened runtime; service: kTCCServiceAll Denied".data

/-- A raw TCC line carrying only a target pid token, no service token. -/
def linePidOnly : Str := "update access record: target_token=\x7bpid:42\x7d, reason: unrelated".data

/-- A raw TCC line carrying a service token, a verdict token and the
resolution-triggering target pid token at once. -/
def lineMicPid : Str := "kTCCServiceMicrophone: Access Allowed for target_token=\x7bpid:7390\x7d ok".data

/-! Association-list lemmas about the dedup map. -/

theorem lookupKey_setKey_self (m : SignalMap) (k : Str) (e : DedupEntry) :
    lookupKey (setKey m k e) k = some e := by
  induction m with
  | nil => simp [setKey, lookupKey]
  | cons hd tl ih =>
    obtain ⟨k0, e0⟩ := hd
    by_cases h : k0 = k
    · simp [setKey, h, lookupKey]
    · simp [setKey, h, lookupKey, ih]

theorem lookupKey_filter_some (m : SignalMap) (k : Str) (e : DedupEntry)
    (pr : Str × DedupEntry → Bool)
    (h : lookupKey m k = some e) (hp : pr (k, e) = true) :
    lookupKey (m.filter pr) k = some e := by
  induction m with
  | nil => simp [lookupKey] at h
  | cons hd tl ih =>
    obtain ⟨k0, e0⟩ := hd
    by_cases hk : k0 = k
    · subst hk
      simp only [lookupKey, if_true, eq_self_iff_true, Option.some.injEq] at h
      subst h
      simp [List.filter, hp, lookupKey]
    · simp only [lookupKey, if_neg hk] at h
      cases hpr : pr (k0, e0) <;>
        simp [List.filter, hpr, lookupKey, hk, ih h]

theorem lookupKey_mem (m : SignalMap) (k : Str) (e : DedupEntry)
    (h : lookupKey m k = some e) : (k, e) ∈ m := by
  induction m with
  | nil => simp [lookupKey] at h
  | cons hd tl ih =>
    obtain ⟨k0, e0⟩ := hd
    by_cases hk : k0 = k
    · subst hk
      simp only [lookupKey, if_true, eq_self_iff_true, Option.some.injEq] at h
      subst h
      exact List.mem_cons_self _ _
    · simp only [lookupKey, if_neg hk] at h
      exact List.mem_cons_of_mem _ (ih h)

theorem lookupKey_eq_none (m : SignalMap) (k : Str)
    (h : ∀ e, (k, e) ∉ m) : lookupKey m k = none := by
  cases hl : lookupKey m k with
  | none => rfl
  | some e => exact absurd (lookupKey_mem m k e hl) (h e)

theorem mem_setKey (m : SignalMap) (k : Str) (e : DedupEntry)
    (x : Str × DedupEntry) (h : x ∈ setKey m k e) : x ∈ m ∨ x = (k, e) := by
  induction m with
  | nil => simp [setKey] at h; right; exact h
  | cons hd tl ih =>
    obtain ⟨k0, e0⟩ := hd
    by_cases hk : k0 = k
    · simp only [setKey, if_pos hk] at h
      rcases List.mem_cons.mp h with h | h
      · right; exact h
      · left; exact List.mem_cons_of_mem _ h
    · simp only [setKey, if_neg hk] at h
      rcases List.mem_cons.mp h with h | h
      · left; exact h ▸ List.mem_cons_self _ _
      · rcases ih h with h | h
        · left; exact List.mem_cons_of_mem _ h
        · right; exact h

/-- After tracking a signal with a non-empty pid at time `now`, its key maps
to a fresh entry timestamped `now` (the sweep never removes the entry it
just wrote). -/
theorem lookupKey_trackSignal_self (now : Nat) (m : SignalMap) (s : MeetingSignal)
    (hpid : s.pid ≠ []) :
    lookupKey (trackSignal now m s) (signalKey s) =
      some { timestamp := now, signal := s } := by
  unfold trackSignal
  rw [if_neg hpid]
  apply lookupKey_filter_some
  · exact lookupKey_setKey_self m (signalKey s) _
  · simp only [Bool.not_eq_true', decide_eq_false_iff_not]
    omega

/-- C5: for every well-formed forwarded record, the parser replaces the
service by the normalizer output exactly when the upstream service field is
the raw resource name (microphone or camera) or empty, and keeps the
upstream value unchanged in every other case. -/
theorem parse_service_rederivation (r : RawRecord) :
    ((jsOr r.service = "microphone".data ∨ jsOr r.service = "camera".data ∨
        jsOr r.service = []) →
      (parseSignal r).service = transformAppName (jsOr r.front_app) (jsOr r.process)) ∧
    (¬(jsOr r.service = "microphone".data ∨ jsOr r.service = "camera".data ∨
        jsOr r.service = []) →
      (parseSignal r).service = jsOr r.service) := by
  constructor
  · intro h
    simp only [parseSignal, if_pos h]
  · intro h
    simp only [parseSignal, if_neg h]

/-- Witness for C5: the fixture record with upstream service "microphone"
gets the canonical Microsoft Teams label. -/
theorem parse_service_rederivation_witness :
    (parseSignal rawTeams).service =
      transformAppName (jsOr rawTeams.front_app) (jsOr rawTeams.process) :=
  (parse_service_rederivation rawTeams).1 (by decide)

/-- C7: a malformed line reports exactly one error, leaves the dedup state
untouched, and every subsequent line of the batch is processed exactly as
it would have been without the malformed line. -/
theorem parse_error_isolated (m : SignalMap) (now : Nat) (rest : List (Nat × Line)) :
    processLines m ((now, Line.malformed) :: rest) =
      ((processLines m rest).1, Out.error :: (processLines m rest).2) := by
  simp [processLines, step]

/-- C9: a Signal with an empty pid is never a dedup duplicate, never
mutates the cache, and (when not denylisted) is always forwarded, whatever
the cache holds. -/
theorem empty_pid_bypass (now : Nat) (m : SignalMap) (s : MeetingSignal)
    (hpid : s.pid = []) :
    isDuplicateSignal now m s = false ∧
    trackSignal now m s = m ∧
    (isNoiseProcess s = false → handleSignal now m s = (m, [Out.meeting s])) := by
  refine ⟨by simp [isDuplicateSignal, hpid], by simp [trackSignal, hpid], fun hn => ?_⟩
  simp [handleSignal, hn, isDuplicateSignal, trackSignal, hpid]

/-- Witness for C9: the empty-pid fixture signal is forwarded even from a
cache already holding other entries. -/
theorem empty_pid_bypass_witness :
    isDuplicateSignal 5 (trackSignal 0 [] sigZoom) sigNoPid = false ∧
    trackSignal 5 (trackSignal 0 [] sigZoom) sigNoPid = trackSignal 0 [] sigZoom ∧
    (isNoiseProcess sigNoPid = false →
      handleSignal 5 (trackSignal 0 [] sigZoom) sigNoPid =
        (trackSignal 0 [] sigZoom, [Out.meeting sigNoPid])) :=
  empty_pid_bypass 5 (trackSignal 0 [] sigZoom) sigNoPid (by decide)

/-- C2: once a Signal with a non-empty pid has been forwarded at `t1`, an
identical-key, non-denylisted Signal arriving at `t2` is dropped with the
cache untouched exactly when strictly less than 60000 ms have passed, and
is forwarded (and re-tracked) when 60000 ms or more have passed. -/
theorem dedup_suppression_window (s1 s2 : MeetingSignal) (m0 : SignalMap) (t1 t2 : Nat)
    (hpid1 : s1.pid ≠ []) (hpid2 : s2.pid ≠ [])
    (hkey : signalKey s2 = signalKey s1)
    (hn1 : isNoiseProcess s1 = false) (hn2 : isNoiseProcess s2 = false)
    (hfirst : isDuplicateSignal t1 m0 s1 = false) :
    handleSignal t1 m0 s1 = (trackSignal t1 m0 s1, [Out.meeting s1]) ∧
    handleSignal t2 (trackSignal t1 m0 s1) s2 =
      (if t2 - t1 < 60000 then (trackSignal t1 m0 s1, [])
       else (trackSignal t2 (trackSignal t1 m0 s1) s2, [Out.meeting s2])) := by
  have hlk : lookupKey (trackSignal t1 m0 s1) (signalKey s2) =
      some { timestamp := t1, signal := s1 } := by
    rw [hkey]; exact lookupKey_trackSignal_self t1 m0 s1 hpid1
  constructor
  · simp [handleSignal, hn1, hfirst]
  · have hdup : isDuplicateSignal t2 (trackSignal t1 m0 s1) s2 =
        decide (t2 - t1 < 60000) := by
      simp [isDuplicateSignal, hpid2, hlk]
    by_cases hlt : t2 - t1 < 60000
    · rw [if_pos hlt]
      simp [handleSignal, hn2, hdup, hlt]
    · rw [if_neg hlt]
      simp [handleSignal, hn2, hdup, hlt]

/-- Witness for C2: a duplicate of the fixture signal 1000 ms after the
first forward is dropped. -/
theorem dedup_suppression_window_witness :
    handleSignal 0 [] sigZoom = (trackSignal 0 [] sigZoom, [Out.meeting sigZoom]) ∧
    handleSignal 1000 (trackSignal 0 [] sigZoom) sigZoom =
      (if 1000 - 0 < 60000 then (trackSignal 0 [] sigZoom, [])
       else (trackSignal 1000 (trackSignal 0 [] sigZoom) sigZoom, [Out.meeting sigZoom])) :=
  dedup_suppression_window sigZoom sigZoom [] 0 1000 (by decide) (by decide) rfl
    (by decide) (by decide) (by decide)

/-- Counterexample to C3 as stated: the sweep run while tracking `sigWebex`
at time 120000 keeps the entry for `sigZoom` written at time 0, although its
age is exactly `evictionWindowMs` = 120000 ms; the code evicts only entries
strictly older than the window. -/
theorem eviction_boundary_cex :
    lookupKey (trackSignal 120000 (trackSignal 0 [] sigZoom) sigWebex)
      (signalKey sigZoom) = some { timestamp := 0, signal := sigZoom } := by decide

/-- C3 (amended): the upsert sweep removes every cache entry whose age is
strictly greater than `evictionWindowMs` = 120000 ms (an entry of age
exactly 120000 ms survives), and after eviction a Signal with the evicted
key is treated as novel and forwarded. -/
theorem eviction_sweep (now : Nat) (m : SignalMap) (s : MeetingSignal) (k : Str)
    (hpid : s.pid ≠ []) (hk : k ≠ signalKey s)
    (hold : ∀ e, (k, e) ∈ m → e.timestamp + 120000 < now) :
    lookupKey (trackSignal now m s) k = none ∧
    (∀ t2 s2, signalKey s2 = k → isNoiseProcess s2 = false →
      handleSignal t2 (trackSignal now m s) s2 =
        (trackSignal t2 (trackSignal now m s) s2, [Out.meeting s2])) := by
  have hnone : lookupKey (trackSignal now m s) k = none := by
    apply lookupKey_eq_none
    intro e he
    simp only [trackSignal, if_neg hpid] at he
    have hmem := List.mem_filter.mp he
    rcases mem_setKey _ _ _ _ hmem.1 with hin | heq
    · have hts := hold e hin
      have hpr := hmem.2
      simp only [Bool.not_eq_true', decide_eq_false_iff_not, not_lt] at hpr
      omega
    · exact hk (congrArg Prod.fst heq)
  refine ⟨hnone, fun t2 s2 hks hn2 => ?_⟩
  have hdup : isDuplicateSignal t2 (trackSignal now m s) s2 = false := by
    unfold isDuplicateSignal
    by_cases hp2 : s2.pid = []
    · rw [if_pos hp2]
    · rw [if_neg hp2, hks, hnone]
  simp [handleSignal, hn2, hdup]

/-- Witness for C3: the `sigZoom` entry of age 120001 ms is evicted by the
sweep and a matching later signal is forwarded. -/
theorem eviction_sweep_witness :
    lookupKey (trackSignal 120001 (trackSignal 0 [] sigZoom) sigWebex)
      (signalKey sigZoom) = none ∧
    (∀ t2 s2, signalKey s2 = signalKey sigZoom → isNoiseProcess s2 = false →
      handleSignal t2 (trackSignal 120001 (trackSignal 0 [] sigZoom) sigWebex) s2 =
        (trackSignal t2 (trackSignal 120001 (trackSignal 0 [] sigZoom) sigWebex) s2,
          [Out.meeting s2])) :=
  eviction_sweep 120001 (trackSignal 0 [] sigZoom) sigWebex (signalKey sigZoom)
    (by decide) (by decide)
    (by
      intro e he
      rw [show trackSignal 0 [] sigZoom =
            [(signalKey sigZoom, { timestamp := 0, signal := sigZoom })] from by decide] at he
      have heq := List.mem_singleton.mp he
      have he2 : e = { timestamp := 0, signal := sigZoom } := congrArg Prod.snd heq
      rw [he2]
      decide)

/-- Helper: a non-denylisted signal whose key maps to an entry younger than
the suppression window is dropped with no state change. -/
theorem handleSignal_suppressed (now : Nat) (m : SignalMap) (s : MeetingSignal)
    (e : DedupEntry) (hpid : s.pid ≠ []) (hn : isNoiseProcess s = false)
    (hlk : lookupKey m (signalKey s) = some e) (ht : now - e.timestamp < 60000) :
    handleSignal now m s = (m, []) := by
  have hdup : isDuplicateSignal now m s = true := by
    simp [isDuplicateSignal, hpid, hlk, ht]
  simp [handleSignal, hn, hdup]

/-- Helper: an unbroken run of identical signals inside the suppression
window leaves both the cache and the output stream untouched. -/
theorem processSignals_suppressed (s : MeetingSignal) (m : SignalMap) (e : DedupEntry)
    (ts : List Nat) (hpid : s.pid ≠ []) (hn : isNoiseProcess s = false)
    (hlk : lookupKey m (signalKey s) = some e)
    (hall : ∀ t ∈ ts, t - e.timestamp < 60000) :
    processSignals m (ts.map fun t => (t, s)) = (m, []) := by
  induction ts with
  | nil => simp [processSignals]
  | cons t rest ih =>
    have h1 : handleSignal t m s = (m, []) :=
      handleSignal_suppressed t m s e hpid hn hlk (hall t (List.mem_cons_self _ _))
    simp [processSignals, h1, ih (fun t2 ht2 => hall t2 (List.mem_cons_of_mem _ ht2))]

/-- C10: the dedup cache is mutated only when a signal is actually
forwarded: denylisted, duplicate and empty-pid signals leave it unchanged
(including the stored timestamp), so the suppression clock of a key runs
from the last forwarded signal, and an unbroken stream of identical signals
is forwarded again once 60000 ms have elapsed since the last forwarded
one. -/
theorem dedup_frame :
    (∀ now m s, isNoiseProcess s = true → handleSignal now m s = (m, [])) ∧
    (∀ now m s, isNoiseProcess s = false → isDuplicateSignal now m s = true →
      handleSignal now m s = (m, [])) ∧
    (∀ now m s, s.pid = [] → trackSignal now m s = m) ∧
    (∀ (s : MeetingSignal) (m0 : SignalMap) (t1 : Nat) (ts : List Nat) (t2 : Nat),
      s.pid ≠ [] → isNoiseProcess s = false → isDuplicateSignal t1 m0 s = false →
      (∀ t ∈ ts, t - t1 < 60000) → 60000 ≤ t2 - t1 →
      processSignals (trackSignal t1 m0 s) (ts.map fun t => (t, s)) =
        (trackSignal t1 m0 s, []) ∧
      handleSignal t2 (trackSignal t1 m0 s) s =
        (trackSignal t2 (trackSignal t1 m0 s) s, [Out.meeting s])) := by
  refine ⟨fun now m s hn => by simp [handleSignal, hn],
    fun now m s hn hd => by simp [handleSignal, hn, hd],
    fun now m s hp => by simp [trackSignal, hp],
    fun s m0 t1 ts t2 hpid hn hfirst hall ht2 => ?_⟩
  have hlk := lookupKey_trackSignal_self t1 m0 s hpid
  constructor
  · exact processSignals_suppressed s _ _ ts hpid hn hlk hall
  · have hdup : isDuplicateSignal t2 (trackSignal t1 m0 s) s = false := by
      simp [isDuplicateSignal, hpid, hlk]
      omega
    simp [handleSignal, hn, hdup]

/-- Witness for C10: two suppressed repeats at 1000 and 30000 ms leave the
cache untouched, and the repeat at 60000 ms is forwarded again. -/
theorem dedup_frame_witness :
    processSignals (trackSignal 0 [] sigZoom) ([1000, 30000].map fun t => (t, sigZoom)) =
      (trackSignal 0 [] sigZoom, []) ∧
    handleSignal 60000 (trackSignal 0 [] sigZoom) sigZoom =
      (trackSignal 60000 (trackSignal 0 [] sigZoom) sigZoom, [Out.meeting sigZoom]) :=
  dedup_frame.2.2.2 sigZoom [] 0 [1000, 30000] 60000 (by decide) (by decide)
    (by decide) (by decide) (by decide)

/-! Shell-loop lemmas. -/

/-- The captured pid of a matching trigger line is a non-empty digit run. -/
theorem extractPid_ne_nil (l p : Str) (h : Shell.extractPid l = some p) : p ≠ [] := by
  induction l with
  | nil => simp [Shell.extractPid] at h
  | cons c rest ih =>
    rw [Shell.extractPid] at h
    by_cases hs : startsWithC "target_token=\x7bpid:".data (c :: rest) = true
    · rw [if_pos hs] at h
      by_cases hd : ((c :: rest).drop ("target_token=\x7bpid:".data.length)).takeWhile Char.isDigit = []
      · rw [if_pos hd] at h
        exact ih h
      · rw [if_neg hd] at h
        injection h with h2
        exact h2 ▸ hd
    · rw [if_neg hs] at h
      exact ih h

/-- Full characterization of one loop iteration at a resolution trigger
with the service set: the emission test decides between emitting (and
overwriting the previous-state snapshot) or not, and in both cases every
accumulator field is cleared. -/
theorem shellStep_resolved (ctx : Shell.Ctx) (st : Shell.ShellState) (l p : Str)
    (hp : Shell.extractPid l = some p)
    (hsvc : Shell.svcAfter st.current_svc l ≠ []) :
    Shell.shellStep ctx st l =
      if ctx.camNow ++ "|".data ++ Shell.svcAfter st.current_svc l ++ "|".data ++
           Shell.normalize_app (Shell.basenameC ctx.comm) ≠
           st.prev_camera_active ++ "|".data ++ st.prev_service ++ "|".data ++
             st.prev_main_app ∨
         ctx.epochNow - st.last_log_time ≥ 10 then
        ({ st with
            prev_camera_active := ctx.camNow
            prev_front_app := ctx.fgApp
            prev_service := Shell.svcAfter st.current_svc l
            prev_verdict := Shell.verdictAfter st.current_verdict l
            prev_process := Shell.basenameC ctx.comm
            prev_pid := p
            prev_main_app := Shell.normalize_app (Shell.basenameC ctx.comm)
            last_log_time := ctx.epochNow
            current_svc := [], current_pid := [], current_app := []
            current_verdict := [], current_parent_pid := []
            current_process_path := [] },
         some { event := "meeting_signal".data
                timestamp := ctx.ts
                service := Shell.svcAfter st.current_svc l
                verdict := Shell.verdictAfter st.current_verdict l
                process := Shell.basenameC ctx.comm
                pid := p
                parent_pid := ctx.parentPid
                process_path := ctx.processPath
                front_app := ctx.fgApp
                window_title := ctx.winTitle
                session_id := ctx.sessId
                camera_active := ctx.camNow })
      else
        ({ st with
            current_svc := [], current_pid := [], current_app := []
            current_verdict := [], current_parent_pid := []
            current_process_path := [] },
         none) := by
  have hpne := extractPid_ne_nil l p hp
  simp only [Shell.shellStep, hp]
  rw [if_pos hpne, if_pos ⟨hsvc, hpne⟩]
  split
  · simp [Shell.clearCurrent]
  · simp [Shell.clearCurrent]

/-- Characterization of one loop iteration at a resolution trigger with the
service still unset: nothing is emitted and nothing is cleared -- the pid,
app and process details are overwritten from the trigger line, while the
service and verdict fields keep their token-updated values. -/
theorem shellStep_unresolved (ctx : Shell.Ctx) (st : Shell.ShellState) (l p : Str)
    (hp : Shell.extractPid l = some p)
    (hsvc : Shell.svcAfter st.current_svc l = []) :
    Shell.shellStep ctx st l =
      ({ st with
          current_svc := Shell.svcAfter st.current_svc l
          current_verdict := Shell.verdictAfter st.current_verdict l
          current_pid := p
          current_app := Shell.basenameC ctx.comm
          current_parent_pid := ctx.parentPid
          current_process_path := ctx.processPath }, none) := by
  have hpne := extractPid_ne_nil l p hp
  simp only [Shell.shellStep, hp]
  rw [if_pos hpne, if_neg (fun hc => hc.1 hsvc)]

/-- Counterexample to C1 as stated: a deny-verdict line followed by a
pid-only trigger line produces no CandidateEvent (as the claim says), but
the accumulator is NOT cleared -- the stale verdict "denied" and the pid
from the unrelated trigger remain for the next record. -/
theorem accumulator_reset_cex :
    (Shell.shellStep ctxA (Shell.shellStep ctxA Shell.initialState lineDenied).1
      linePidOnly).2 = none ∧
    (Shell.shellStep ctxA (Shell.shellStep ctxA Shell.initialState lineDenied).1
      linePidOnly).1.current_verdict = "denied".data ∧
    (Shell.shellStep ctxA (Shell.shellStep ctxA Shell.initialState lineDenied).1
      linePidOnly).1.current_pid = "42".data := by
  decide

/-- C1 (amended): at a resolution trigger the accumulator is cleared iff the
service field is set once the trigger line itself has been folded in: with
service set, every accumulator field is reset whether or not the emission
check passes; with service unset, no CandidateEvent is produced and the
accumulator is NOT cleared -- the pid is overwritten from the trigger line
and the (token-updated) verdict is retained for the next record. -/
theorem accumulator_reset (ctx : Shell.Ctx) (st : Shell.ShellState) (l p : Str)
    (hp : Shell.extractPid l = some p) :
    (Shell.svcAfter st.current_svc l ≠ [] →
      (Shell.shellStep ctx st l).1.current_svc = [] ∧
      (Shell.shellStep ctx st l).1.current_pid = [] ∧
      (Shell.shellStep ctx st l).1.current_app = [] ∧
      (Shell.shellStep ctx st l).1.current_verdict = [] ∧
      (Shell.shellStep ctx st l).1.current_parent_pid = [] ∧
      (Shell.shellStep ctx st l).1.current_process_path = []) ∧
    (Shell.svcAfter st.current_svc l = [] →
      (Shell.shellStep ctx st l).2 = none ∧
      (Shell.shellStep ctx st l).1.current_verdict =
        Shell.verdictAfter st.current_verdict l ∧
      (Shell.shellStep ctx st l).1.current_pid = p) := by
  constructor
  · intro hsvc
    rw [shellStep_resolved ctx st l p hp hsvc]
    split <;> simp
  · intro hsvc
    rw [shellStep_unresolved ctx st l p hp hsvc]
    simp

/-- Witness for C1: a single line carrying the microphone token, an allow
token and the pid trigger resolves with service set, and every accumulator
field comes out cleared. -/
theorem accumulator_reset_witness :
    Shell.svcAfter Shell.initialState.current_svc lineMicPid ≠ [] ∧
    ((Shell.shellStep ctxA Shell.initialState lineMicPid).1.current_svc = [] ∧
     (Shell.shellStep ctxA Shell.initialState lineMicPid).1.current_pid = [] ∧
     (Shell.shellStep ctxA Shell.initialState lineMicPid).1.current_app = [] ∧
     (Shell.shellStep ctxA Shell.initialState lineMicPid).1.current_verdict = [] ∧
     (Shell.shellStep ctxA Shell.initialState lineMicPid).1.current_parent_pid = [] ∧
     (Shell.shellStep ctxA Shell.initialState lineMicPid).1.current_process_path = []) :=
  ⟨by decide,
   (accumulator_reset ctxA Shell.initialState lineMicPid "7390".data (by decide)).1
     (by decide)⟩

/-- C4: the upstream filter emits at a resolution iff the state triple
(camera flag, service, coarse-normalized app) differs from the previous
snapshot or at least 10 seconds have passed since the last emission; the
front app is not part of the triple, so two resolutions that agree on the
triple (and may differ arbitrarily in front app) less than 10 seconds
apart produce at most one emission. -/
theorem upstream_cooldown :
    (∀ (ctx : Shell.Ctx) (st : Shell.ShellState) (l p : Str),
      Shell.extractPid l = some p → Shell.svcAfter st.current_svc l ≠ [] →
      ((Shell.shellStep ctx st l).2.isSome ↔
        (ctx.camNow ++ "|".data ++ Shell.svcAfter st.current_svc l ++ "|".data ++
            Shell.normalize_app (Shell.basenameC ctx.comm) ≠
            st.prev_camera_active ++ "|".data ++ st.prev_service ++ "|".data ++
              st.prev_main_app ∨
          ctx.epochNow - st.last_log_time ≥ 10))) ∧
    (∀ (ctx1 ctx2 : Shell.Ctx) (st0 : Shell.ShellState) (l1 l2 p1 p2 : Str),
      Shell.extractPid l1 = some p1 → Shell.extractPid l2 = some p2 →
      Shell.svcAfter st0.current_svc l1 ≠ [] →
      Shell.svcAfter [] l2 = Shell.svcAfter st0.current_svc l1 →
      ctx2.camNow = ctx1.camNow →
      Shell.normalize_app (Shell.basenameC ctx2.comm) =
        Shell.normalize_app (Shell.basenameC ctx1.comm) →
      ctx2.epochNow < ctx1.epochNow + 10 →
      (Shell.shellStep ctx1 st0 l1).2 = none ∨
      (Shell.shellStep ctx2 (Shell.shellStep ctx1 st0 l1).1 l2).2 = none) := by
  constructor
  · intro ctx st l p hp hsvc
    rw [shellStep_resolved ctx st l p hp hsvc]
    split
    · next hc => simpa using hc
    · next hc => simpa using hc
  · intro ctx1 ctx2 st0 l1 l2 p1 p2 hp1 hp2 hsvc1 hsvc2 hcam happ hdt
    rw [shellStep_resolved ctx1 st0 l1 p1 hp1 hsvc1]
    split
    · right
      rw [shellStep_resolved ctx2 _ l2 p2 hp2
        (by rw [show Shell.svcAfter _ l2 = Shell.svcAfter [] l2 from rfl, hsvc2]; exact hsvc1)]
      split
      · next hc2 =>
        exfalso
        rcases hc2 with hc2 | hc2
        · exact hc2 (by rw [hcam, happ, show Shell.svcAfter _ l2 = Shell.svcAfter [] l2 from rfl, hsvc2])
        · revert hc2
          simp only [ge_iff_le, not_le]
          omega
      · rfl
    · left
      rfl

/-- Witness for C4: two resolutions of the same microphone line 5 seconds
apart, identical except for the frontmost app, yield at most one emission. -/
theorem upstream_cooldown_witness :
    (Shell.shellStep ctxA Shell.initialState lineMicPid).2 = none ∨
    (Shell.shellStep ctxB (Shell.shellStep ctxA Shell.initialState lineMicPid).1
      lineMicPid).2 = none :=
  upstream_cooldown.2 ctxA ctxB Shell.initialState lineMicPid lineMicPid
    "7390".data "7390".data (by decide) (by decide) (by decide) (by decide)
    (by decide) (by decide) (by decide)

/-- C8: the normalizer is a pure function (trivially, being a function of
its two arguments); rule order resolves overlapping substrings, so the
specific Google Meet rule beats the generic Chrome rule; and when no rule
of the table fires the result is the front app if non-empty, else the
fixed fallback label. -/
theorem normalizer_table :
    (∀ a p : Str, transformAppName a p = transformAppName a p) ∧
    transformAppName "Google Chrome".data "meet.google.com helper".data =
      "Google Meet".data ∧
    (∀ a p : Str, ruleFires (lowerStr a) (lowerStr p) = false →
      transformAppName a p = if a = [] then "Meeting App".data else a) := by
  refine ⟨fun a p => rfl, by decide, fun a p h => ?_⟩
  simp only [ruleFires, Bool.or_eq_false_iff] at h
  simp [transformAppName, h]

/-- Witness for C8: no rule fires on Safari, which is returned unchanged. -/
theorem normalizer_table_witness :
    transformAppName "Safari".data "safari".data =
      (if "Safari".data = ([] : Str) then "Meeting App".data else "Safari".data) :=
  normalizer_table.2.2 "Safari".data "safari".data (by decide)

/-- Counterexample to C6 as stated: a signal forwarded (and tracked) at
time 0 in the first session still occupies the dedup cache after stop and
restart, so the first matching signal of the new session at 5000 ms is
suppressed instead of being forwarded as novel. -/
theorem session_state_cex :
    (Detector.feed { running := true, recentSignals := [] }
      [(0, Line.valid rawZoom)]).2 = [Out.meeting (parseSignal rawZoom)] ∧
    ((Detector.feed { running := true, recentSignals := [] }
        [(0, Line.valid rawZoom)]).1.stop.start.map
      (fun d => (Detector.feed d [(5000, Line.valid rawZoom)]).2)) = some [] := by
  decide

/-- C6 (amended): the dedup cache persists for the lifetime of the detector
instance, not just of one monitoring session: stop and (successful) start
leave `recentSignals` unchanged, and only a freshly constructed instance
starts with an empty cache -- so after a stop/restart, entries of the
previous session keep suppressing matching signals within the suppression
window. -/
theorem session_state_persistence (d : Detector) :
    (d.stop).recentSignals = d.recentSignals ∧
    (∀ e, d.start = some e → e.recentSignals = d.recentSignals) ∧
    Detector.new.recentSignals = [] := by
  refine ⟨?_, ?_, rfl⟩
  · unfold Detector.stop
    split <;> rfl
  · intro e he
    unfold Detector.start at he
    split at he
    · exact absurd he (by simp)
    · injection he with he2
      rw [← he2]

/-- Witness for C6: starting a stopped instance keeps its cache. -/
theorem session_state_persistence_witness :
    ({ running := true, recentSignals := [] } : Detector).recentSignals =
      Detector.new.recentSignals :=
  (session_state_persistence Detector.new).2.1
    { running := true, recentSignals := [] } (by decide)

end MeetingDetect
